import Mathlib

/-!
Shallow embedding of the ephemeral dependency lifecycle controller
(`automation/plugin/docker_wrapper.py`, `automation/plugin/pytest_docker_plugin.py`)
and the demo service (`rest_app/app.py`).

External effects are modelled by explicit environments: each external command
execution is an abstract `CmdOutcome` supplied by a `DockerEnv`, Python
exceptions are the `PyError` type threaded through `Except`, and the
unbounded retry loop of the third-party `retrying` library is unrolled by an
explicit fuel parameter (`none` means the loop is still running after `fuel`
attempts).
-/

/-- Python exceptions that can cross the boundaries relevant here.
`fileNotFoundError` is what `subprocess.run` raises when the executable
cannot be launched; `retryError` is `retrying.RetryError`. -/
inductive PyError
  | valueError
  | fileNotFoundError
  | retryError
  | otherError
deriving DecidableEq

/-- Outcome of handing an argument vector to `subprocess.run`:
either the process ran to completion with an exit status and captured
stdout/stderr, or it could not be launched at all. -/
inductive CmdOutcome
  | completed (returncode : Int) (stdout stderr : String)
  | launchFailure
deriving DecidableEq

/-- Python `str.strip()`: remove leading and trailing whitespace. -/
def py_strip (s : String) : String :=
  ⟨((s.data.dropWhile Char.isWhitespace).reverse.dropWhile Char.isWhitespace).reverse⟩

/-- `_run_command(args)` from `docker_wrapper.py`:
`subprocess.run(args, check=True, capture_output=True, text=True)` raises
`CalledProcessError` on a non-zero exit status, which the function catches,
logs and converts to the empty string; on a zero exit it returns
`result.stdout.strip()`.  An exception other than `CalledProcessError`
(e.g. `FileNotFoundError` when the binary is missing) is not caught. -/
def run_command (args : List String) (outcome : CmdOutcome) : Except PyError String :=
  match outcome with
  | .completed returncode stdout _stderr =>
      if returncode = 0 then .ok (py_strip stdout)
      else .ok ""
  | .launchFailure => .error .fileNotFoundError

deriving instance DecidableEq for Except

/-- One invocation of the operation handed to `retrying.Retrying.call`:
a normal return value or a raised exception. -/
abbrev Attempt := Except PyError String

/-- The two reject filters configured on a `retrying.Retrying` object. -/
structure RetryConfig where
  retryOnException : PyError → Bool
  retryOnResult : String → Bool

/-- `Retrying.exponential_sleep(previous_attempt_number, ...)` of the
`retrying` library: `multiplier * 2 ** previous_attempt_number`, clamped
to `wait_exponential_max` from above and to `0` from below. -/
def exponential_sleep (multiplier maxWait : Int) (previous_attempt_number : Nat) : Int :=
  let e : Int := 2 ^ previous_attempt_number
  let result := multiplier * e
  let result := if result > maxWait then maxWait else result
  if result < 0 then 0 else result

/-- The wait function of the `Retrying` object built by `_with_retry`
(`wait_exponential_multiplier=1000`, `wait_exponential_max=10000`):
the maximum over the constant-zero wait and `exponential_sleep`. -/
def retry_wait (previous_attempt_number : Nat) : Int :=
  max 0 (exponential_sleep 1000 10000 previous_attempt_number)

/-- The stop predicate of the `Retrying` object built by `_with_retry`:
neither `stop_max_attempt_number` nor `stop_max_delay` is passed, so the
list of stop behaviours is empty and `any` of it is constantly false. -/
def retry_stop (_attempt_number : Nat) (_delay_ms : Int) : Bool := false

/-- `Retrying.should_reject`: a raised exception is filtered by
`retry_on_exception`, a returned value by `retry_on_result`. -/
def should_reject (cfg : RetryConfig) (a : Attempt) : Bool :=
  match a with
  | .error e => cfg.retryOnException e
  | .ok v => cfg.retryOnResult v

/-- Result of `Retrying.call`: the accepted value, or an exception
propagated to the caller. -/
inductive RetryOutcome
  | result (v : String)
  | raised (e : PyError)
deriving DecidableEq

/-- Observable trace of one `Retrying.call`: how many times the operation
was invoked and the sleeps (in ms) performed between attempts. -/
structure RetryTrace where
  attempts : Nat
  waits : List Int
deriving DecidableEq

/-- `Retrying.call`, fuel-bounded unrolling.  `op k` is the outcome of the
`k`-th invocation of the operation (attempt numbers are 1-based, as in the
library).  The real loop has no bound; `none` means it is still looping
after `fuel` attempts.  When an attempt is not rejected, `attempt.get`
returns its value or re-raises its exception (`wrap_exception` is false);
when it is rejected and the stop predicate fires, the exception is
re-raised if present, otherwise `RetryError` is raised — dead code under
this configuration, since `retry_stop` is constantly false. -/
def retrying_callAux (cfg : RetryConfig) (op : Nat → Attempt) :
    Nat → Nat → List Int → Option (RetryOutcome × RetryTrace)
  | 0, _, _ => none
  | fuel + 1, attempt_number, waits =>
    let a := op attempt_number
    if should_reject cfg a then
      if retry_stop attempt_number 0 then
        match a with
        | .error e => some (.raised e, ⟨attempt_number, waits⟩)
        | .ok _ => some (.raised .retryError, ⟨attempt_number, waits⟩)
      else
        retrying_callAux cfg op fuel (attempt_number + 1)
          (waits ++ [retry_wait attempt_number])
    else
      match a with
      | .ok v => some (.result v, ⟨attempt_number, waits⟩)
      | .error e => some (.raised e, ⟨attempt_number, waits⟩)

/-- `isinstance(err, ValueError)` over the modelled exception type. -/
def is_value_error : PyError → Bool
  | .valueError => true
  | _ => false

/-- `_with_retry(retry_on_result, function, ...)` from `docker_wrapper.py`:
builds a `Retrying` with `retry_on_exception = isinstance(err, ValueError)`,
the given `retry_on_result`, exponential backoff multiplier 1000 and cap
10000, and calls the function. -/
def with_retry (retry_on_result : String → Bool) (op : Nat → Attempt)
    (fuel : Nat) : Option (RetryOutcome × RetryTrace) :=
  retrying_callAux ⟨is_value_error, retry_on_result⟩ op fuel 1 []

/-- The environment a `DockerWrapper` acts on: the outcome of the `n`-th
execution (0-based) of each of the three external command shapes —
`docker ps -q --filter ancestor=<name>` (query), `docker run -d -p <port>
<name>` (launch) and `docker stop <id>`. -/
structure DockerEnv where
  ps : Nat → CmdOutcome
  launch : Nat → CmdOutcome
  stopCmd : Nat → CmdOutcome

/-- Counts of external commands issued and sleeps performed (in ms,
grace periods and backoff waits in order) during one `start()`/`stop()`
call. -/
structure DockerTrace where
  launches : Nat
  stops : Nat
  queries : Nat
  waits : List Int
deriving DecidableEq

/-- The constructor state of `DockerWrapper`: image/container name and
port mapping (default `"8000:8000"`). -/
structure DockerWrapper where
  container_name : String
  port : String := "8000:8000"

/-- `DockerWrapper._get_container_id`: run
`docker ps -q --filter ancestor=<container_name>` through `_run_command`. -/
def DockerWrapper.get_container_id (w : DockerWrapper) (outcome : CmdOutcome) :
    Except PyError String :=
  run_command ["docker", "ps", "-q", "--filter", "ancestor=" ++ w.container_name] outcome

/-- `DockerWrapper._run_container`: run
`docker run -d -p <port> <container_name>` through `_run_command`. -/
def DockerWrapper.run_container (w : DockerWrapper) (outcome : CmdOutcome) :
    Except PyError String :=
  run_command ["docker", "run", "-d", "-p", w.port, w.container_name] outcome

/-- `DockerWrapper._stop_container(container_id)`: run
`docker stop <container_id>` through `_run_command`. -/
def DockerWrapper.stop_container (w : DockerWrapper) (container_id : String)
    (outcome : CmdOutcome) : Except PyError String :=
  run_command ["docker", "stop", container_id] outcome

/-- `DockerWrapper.start()`: query the container id; if empty, issue the
launch command (its returned id is discarded), sleep 2.5 s, and poll
`_get_container_id` through `_with_retry` with reject predicate
`result == ''`; finally return `container_id` — the variable bound by the
initial query, which is never reassigned.  The polling attempts consume
`env.ps 1, env.ps 2, …`.  `.ok none` means the retry loop was still
running after `fuel` attempts; a raised exception propagates as
`.error`. -/
def DockerWrapper.start (w : DockerWrapper) (env : DockerEnv) (fuel : Nat) :
    Except PyError (Option (String × DockerTrace)) :=
  match w.get_container_id (env.ps 0) with
  | .error e => .error e
  | .ok container_id =>
    if container_id = "" then
      match w.run_container (env.launch 0) with
      | .error e => .error e
      | .ok _ =>
        match with_retry (fun result => result == "")
            (fun k => w.get_container_id (env.ps k)) fuel with
        | none => .ok none
        | some (.result _, tr) =>
            .ok (some (container_id, ⟨1, 0, 1 + tr.attempts, 2500 :: tr.waits⟩))
        | some (.raised e, _) => .error e
    else
      .ok (some (container_id, ⟨0, 0, 1, []⟩))

/-- `DockerWrapper.stop()`: query the container id; if non-empty, issue
`docker stop` against it, sleep 1.5 s, and poll `_get_container_id`
through `_with_retry` with reject predicate `result != ''`; return the
id that was queried before the stop. -/
def DockerWrapper.stop (w : DockerWrapper) (env : DockerEnv) (fuel : Nat) :
    Except PyError (Option (String × DockerTrace)) :=
  match w.get_container_id (env.ps 0) with
  | .error e => .error e
  | .ok container_id =>
    if container_id ≠ "" then
      match w.stop_container container_id (env.stopCmd 0) with
      | .error e => .error e
      | .ok _ =>
        match with_retry (fun result => result != "")
            (fun k => w.get_container_id (env.ps k)) fuel with
        | none => .ok none
        | some (.result _, tr) =>
            .ok (some (container_id, ⟨0, 1, 1 + tr.attempts, 1500 :: tr.waits⟩))
        | some (.raised e, _) => .error e
    else
      .ok (some (container_id, ⟨0, 0, 1, []⟩))

/-- The environment as seen by a second lifecycle call issued after one
whose trace is `t`: each command counter is advanced past the executions
the first call consumed. -/
def DockerEnv.advance (env : DockerEnv) (t : DockerTrace) : DockerEnv where
  ps := fun n => env.ps (n + t.queries)
  launch := fun n => env.launch (n + t.launches)
  stopCmd := fun n => env.stopCmd (n + t.stops)

/-- A call on the managed `DockerWrapper` recorded by a plugin callback. -/
inductive LifecycleCall
  | start
  | stop
deriving DecidableEq

/-- The configuration state of `DockerMangePlugin`
(`pytest_docker_plugin.py`): the `--with-docker` flag and the
`--container-scope` option (restricted by `choices` to `"session"` or
`"test"`); `container_name` feeds the owned `DockerWrapper`. -/
structure DockerMangePlugin where
  container_name : String
  with_docker : Bool
  action_scope : String

/-- `pytest_sessionstart`: calls `self.docker.start()` iff
`self.with_docker and self.action_scope == 'session'`. -/
def DockerMangePlugin.pytest_sessionstart (p : DockerMangePlugin) : List LifecycleCall :=
  if p.with_docker && p.action_scope == "session" then [.start] else []

/-- `pytest_sessionfinish`: calls `self.docker.stop()` iff
`self.with_docker and self.action_scope == 'session'`. -/
def DockerMangePlugin.pytest_sessionfinish (p : DockerMangePlugin) : List LifecycleCall :=
  if p.with_docker && p.action_scope == "session" then [.stop] else []

/-- `pytest_runtest_setup`: calls `self.docker.start()` iff
`self.with_docker and self.action_scope == 'test'`. -/
def DockerMangePlugin.pytest_runtest_setup (p : DockerMangePlugin) : List LifecycleCall :=
  if p.with_docker && p.action_scope == "test" then [.start] else []

/-- `pytest_runtest_teardown`: calls `self.docker.stop()` iff
`self.with_docker and self.action_scope == 'test'`. -/
def DockerMangePlugin.pytest_runtest_teardown (p : DockerMangePlugin) : List LifecycleCall :=
  if p.with_docker && p.action_scope == "test" then [.stop] else []

/-- Python `str.split()` with no separator, on a character list:
split on runs of whitespace, discarding empty pieces.  `acc` holds the
characters of the current word, reversed. -/
def py_split_aux : List Char → List Char → List String
  | [], [] => []
  | [], acc => [⟨acc.reverse⟩]
  | c :: cs, acc =>
    if c.isWhitespace then
      match acc with
      | [] => py_split_aux cs []
      | _ => ⟨acc.reverse⟩ :: py_split_aux cs []
    else
      py_split_aux cs (c :: acc)

/-- Python `str.split()` with no separator. -/
def py_split (s : String) : List String := py_split_aux s.data []

/-- Body of a JSON response of the demo service: `{"error": msg}` or
`{"result": s}`. -/
inductive Body
  | error (msg : String)
  | result (s : String)
deriving DecidableEq

/-- `' '.join(reversed(input_text.strip().split()))` from the `/reverse`
handler in `rest_app/app.py`. -/
def reverse_words (input_text : String) : String :=
  String.intercalate " " (py_split (py_strip input_text)).reverse

/-- The `/reverse` handler: `text` is the optional `text` query parameter
(`none` when absent), `cache` is the module-level cache slot
(`none` models `cache['result'] is None`).  Returns
(status, body, new cache).  `if not input_text` is true for both an
absent and an empty-string parameter. -/
def reverse (cache : Option String) (text : Option String) :
    Nat × Body × Option String :=
  match text with
  | none => (400, .error "Missing \x27text\x27 query parameter", cache)
  | some input_text =>
    if input_text = "" then
      (400, .error "Missing \x27text\x27 query parameter", cache)
    else
      let r := reverse_words input_text
      (200, .result r, some r)

/-- The `/restore` handler: 404 when the cache slot is `None`, otherwise
200 with the cached result. -/
def restore (cache : Option String) : Nat × Body :=
  match cache with
  | none => (404, .error "No previous result found")
  | some r => (200, .result r)

/-- The wrapper the plugin builds for the default container name. -/
def dw : DockerWrapper := ⟨"flask-reverse-api", "8000:8000"⟩

/-- Fake environment: no instance running initially, the query returns
empty for the first two calls (N = 2) and the fixed id `c123` thereafter;
all commands succeed. -/
def envLaunch : DockerEnv :=
  ⟨fun k => if k < 2 then .completed 0 "" "" else .completed 0 "c123" "",
   fun _ => .completed 0 "deadbeef" "",
   fun _ => .completed 0 "" ""⟩

/-- Fake environment: the instance is already running with id `c9`. -/
def envRunning : DockerEnv :=
  ⟨fun _ => .completed 0 "c9" "", fun _ => .completed 0 "" "",
   fun _ => .completed 0 "c9" ""⟩

/-- Fake environment: no instance is ever running. -/
def envStopped : DockerEnv :=
  ⟨fun _ => .completed 0 "" "", fun _ => .completed 0 "" "",
   fun _ => .completed 0 "" ""⟩

/-- Expected backoff waits of a polling phase that starts at attempt
`attempt` and is rejected `n` times before being accepted: one
`retry_wait` per rejected attempt. -/
def settle_waits (attempt : Nat) : Nat → List Int
  | 0 => []
  | n + 1 => retry_wait attempt :: settle_waits (attempt + 1) n

/-- Helper: an operation whose every attempt is rejected keeps the
retry loop of `_with_retry` running past any fuel bound. -/
theorem retrying_callAux_rejected_forever (cfg : RetryConfig) (op : Nat → Attempt)
    (h : ∀ k, should_reject cfg (op k) = true) :
    ∀ (fuel attempt : Nat) (waits : List Int),
      retrying_callAux cfg op fuel attempt waits = none := by
  intro fuel
  induction fuel with
  | zero => intro _ _; rfl
  | succ f ih =>
      intro attempt waits
      simp only [retrying_callAux, h attempt, if_true, retry_stop, if_false,
        Bool.false_eq_true]
      exact ih _ _

/-- Helper: an operation rejected on every attempt before `N` and
accepted at attempt `N` settles at attempt `N`, having slept one backoff
wait per rejected attempt — provided the fuel outlasts `N`. -/
theorem retrying_callAux_settles (cfg : RetryConfig) (op : Nat → Attempt)
    (h : String) (N : Nat)
    (hrej : ∀ k, 1 ≤ k → k < N → should_reject cfg (op k) = true)
    (hopN : op N = .ok h)
    (hacc : should_reject cfg (.ok h) = false) :
    ∀ (fuel attempt : Nat) (waits : List Int), 1 ≤ attempt → attempt ≤ N →
      N < attempt + fuel →
      retrying_callAux cfg op fuel attempt waits
        = some (.result h, ⟨N, waits ++ settle_waits attempt (N - attempt)⟩) := by
  intro fuel
  induction fuel with
  | zero => intro attempt waits h1 h2 h3; omega
  | succ f ih =>
      intro attempt waits h1 h2 h3
      rcases eq_or_lt_of_le h2 with heq | hlt
      · subst heq
        unfold retrying_callAux
        simp [hopN, hacc, Nat.sub_self, settle_waits]
      · have hr := hrej attempt h1 hlt
        unfold retrying_callAux
        simp only [hr, if_true, retry_stop, Bool.false_eq_true, if_false]
        rw [ih (attempt + 1) (waits ++ [retry_wait attempt]) (by omega) (by omega)
          (by omega)]
        have hsub : N - attempt = (N - (attempt + 1)) + 1 := by omega
        rw [hsub, settle_waits, List.append_assoc]
        rfl

/-- C1: in an environment where the query is empty for the first N = 2
calls and returns the fixed id `c123` thereafter, with no instance
running at first, `start()` issues the launch command and polls until the
query is non-empty — but it returns the pre-launch query result `""`,
not the non-empty queried handle `c123`: the value produced by the
retried re-query is discarded and `container_id` is never reassigned. -/
theorem start_returns_stale_empty_handle :
    dw.start envLaunch 10 = .ok (some ("", ⟨1, 0, 3, [2500, 2000]⟩)) ∧
    dw.get_container_id (envLaunch.ps 2) = .ok "c123" ∧
    ("" : String) ≠ "c123" := by decide

/-- C2: `_with_retry` configures `Retrying` with neither
`stop_max_attempt_number` nor `stop_max_delay`, so its stop predicate is
constantly false and there is no attempt or elapsed-time ceiling: on an
operation whose result is never accepted (here the constantly-empty
query, rejected by `result == ''`) the loop is still running after any
number of attempts, instead of terminating with a reported exhaustion. -/
theorem with_retry_has_no_ceiling (fuel : Nat) :
    with_retry (fun result => result == "") (fun _ => .ok "") fuel = none :=
  retrying_callAux_rejected_forever ⟨is_value_error, fun result => result == ""⟩
    (fun _ => .ok "") (fun _ => rfl) fuel 1 []

/-- C3 counterexample: a command that cannot be launched at all makes
`_run_command` raise `FileNotFoundError` to the caller — only
`CalledProcessError` is caught — rather than logging and returning the
empty string as the claim states. -/
theorem run_command_launch_failure_cex :
    run_command ["docker", "ps", "-q", "--filter", "ancestor=flask-reverse-api"]
      .launchFailure = .error .fileNotFoundError ∧
    (Except.error PyError.fileNotFoundError ≠ (.ok "" : Except PyError String)) := by
  decide

/-- C3 (amended): `_run_command` returns the trimmed standard output on a
zero exit status, logs the failure and returns the empty string on a
non-zero exit status, but propagates the exception when the command
cannot be launched at all. -/
theorem run_command_spec (args : List String) (rc : Int) (out err : String) :
    run_command args (.completed 0 out err) = .ok (py_strip out) ∧
    (rc ≠ 0 → run_command args (.completed rc out err) = .ok "") ∧
    run_command args .launchFailure = .error .fileNotFoundError := by
  refine ⟨rfl, fun hrc => ?_, rfl⟩
  simp [run_command, hrc]

/-- C3 witness: the three behaviours of `_run_command` at concrete inputs. -/
theorem run_command_spec_witness :
    run_command ["docker"] (.completed 0 "  c123  " "") = .ok "c123" ∧
    run_command ["docker"] (.completed 1 "x" "boom") = .ok "" ∧
    run_command ["docker"] .launchFailure = .error .fileNotFoundError :=
  ⟨by rw [(run_command_spec ["docker"] 1 "  c123  " "").1]; decide,
   (run_command_spec ["docker"] 1 "x" "boom").2.1 (by decide),
   (run_command_spec ["docker"] 1 "x" "boom").2.2⟩

/-- C4 counterexample: the first inter-attempt wait produced by the
retrier configured in `_with_retry` is 2000 ms, not `initialWaitMs` =
1000 ms — `retrying` sleeps `multiplier * 2 ** attempt_number` with the
attempt number starting at 1. -/
theorem backoff_first_wait_cex :
    with_retry (fun result => result == "")
      (fun k => if k = 1 then .ok "" else .ok "c") 10
      = some (.result "c", ⟨2, [2000]⟩) ∧
    ((2000 : Int) ≠ 1000) := by decide

/-- C4 (amended): for the configured parameters the wait after failed
attempt `i` is `min (1000 * 2 ^ i) 10000` ms, so the sequence of waits is
2000, 4000, 8000, 10000, 10000, … — the first wait is `initialWaitMs`
times the multiplier, each subsequent wait is the previous one times the
multiplier, and every wait is capped at `maxWaitMs` = 10000. -/
theorem backoff_shape (i : Nat) :
    retry_wait i = min (1000 * 2 ^ i) 10000 ∧
    with_retry (fun result => result == "")
      (fun k => if k ≤ 5 then .ok "" else .ok "c") 10
      = some (.result "c", ⟨6, [2000, 4000, 8000, 10000, 10000]⟩) := by
  constructor
  · have hpos : (0 : Int) < 2 ^ i := pow_pos (by norm_num) i
    unfold retry_wait exponential_sleep
    simp only []
    split_ifs <;> omega
  · decide

/-- C5: when the initial query already returns a non-empty handle,
`start()` issues zero launch commands, performs no waiting, and returns
that handle unchanged: the trace shows one query, no launch, no stop and
no sleeps. -/
theorem start_idempotent (w : DockerWrapper) (env : DockerEnv) (fuel : Nat)
    (h : String) (hq : w.get_container_id (env.ps 0) = .ok h) (hne : h ≠ "") :
    w.start env fuel = .ok (some (h, ⟨0, 0, 1, []⟩)) := by
  unfold DockerWrapper.start
  rw [hq]
  simp [hne]

/-- C5 witness: in the fake already-running environment, `start()` is an
idempotent no-op returning the existing handle `c9`. -/
theorem start_idempotent_witness :
    dw.get_container_id (envRunning.ps 0) = .ok "c9" ∧ ("c9" : String) ≠ "" ∧
    dw.start envRunning 5 = .ok (some ("c9", ⟨0, 0, 1, []⟩)) :=
  ⟨by decide, by decide, start_idempotent dw envRunning 5 "c9" (by decide) (by decide)⟩

/-- C6: when the initial query returns the empty handle — in particular
when `stop()` is called before any `start()` — `stop()` issues zero stop
commands, performs no waiting, and returns the empty handle: the trace
shows one query, no stop, no launch and no sleeps. -/
theorem stop_idempotent (w : DockerWrapper) (env : DockerEnv) (fuel : Nat)
    (hq : w.get_container_id (env.ps 0) = .ok "") :
    w.stop env fuel = .ok (some ("", ⟨0, 0, 1, []⟩)) := by
  unfold DockerWrapper.stop
  rw [hq]
  simp

/-- C6 witness: in the fake not-running environment, `stop()` is an
idempotent no-op returning the empty handle. -/
theorem stop_idempotent_witness :
    dw.get_container_id (envStopped.ps 0) = .ok "" ∧
    dw.stop envStopped 5 = .ok (some ("", ⟨0, 0, 1, []⟩)) :=
  ⟨by decide, stop_idempotent dw envStopped 5 (by decide)⟩

/-- C7: if the first invocation raises `ValueError` the retrier treats it
as retryable and invokes the operation again (waiting the first backoff
interval), while any other exception raised by the first invocation is
propagated to the caller immediately, after exactly one attempt and with
no wait. -/
theorem with_retry_exception_policy (p : String → Bool) (op : Nat → Attempt)
    (fuel : Nat) (e : PyError) (v : String) :
    (op 1 = .error e → is_value_error e = false → 1 ≤ fuel →
      with_retry p op fuel = some (.raised e, ⟨1, []⟩)) ∧
    (op 1 = .error .valueError → op 2 = .ok v → p v = false → 2 ≤ fuel →
      with_retry p op fuel = some (.result v, ⟨2, [2000]⟩)) := by
  have hw : retry_wait 1 = 2000 := by decide
  constructor
  · intro h1 hev hf
    obtain ⟨f, rfl⟩ : ∃ f, fuel = f + 1 := ⟨fuel - 1, by omega⟩
    unfold with_retry retrying_callAux
    simp [h1, should_reject, hev]
  · intro h1 h2 hpv hf
    obtain ⟨f, rfl⟩ : ∃ f, fuel = f + 2 := ⟨fuel - 2, by omega⟩
    show retrying_callAux _ _ (f + 1 + 1) _ _ = _
    unfold retrying_callAux
    simp only [h1, should_reject, is_value_error, if_true, retry_stop,
      Bool.false_eq_true, if_false, List.nil_append, hw]
    unfold retrying_callAux
    simp [h2, should_reject, hpv]

/-- C7 witness: a `FileNotFoundError` on the first attempt propagates
immediately (one attempt, no wait); a `ValueError` on the first attempt
is retried and the second attempt's accepted value is returned. -/
theorem with_retry_exception_policy_witness :
    with_retry (fun result => result == "")
      (fun _ => .error .fileNotFoundError) 5
      = some (.raised .fileNotFoundError, ⟨1, []⟩) ∧
    with_retry (fun result => result == "")
      (fun k => if k = 1 then .error .valueError else .ok "c7") 5
      = some (.result "c7", ⟨2, [2000]⟩) :=
  ⟨(with_retry_exception_policy (fun result => result == "")
      (fun _ => .error .fileNotFoundError) 5 .fileNotFoundError "c7").1
      rfl rfl (by decide),
   (with_retry_exception_policy (fun result => result == "")
      (fun k => if k = 1 then .error .valueError else .ok "c7") 5
      .fileNotFoundError "c7").2
      rfl rfl rfl (by decide)⟩

/-- C9: in any environment consistent with a launch — no instance is
running at the first `start()`, the post-launch query settles after some
`N ≥ 1` polls (the first `N - 1` polls still observe empty, every poll
from the `N`-th on returns the same non-empty handle, so the handle is
stable by the time the first call returns) — two sequential `start()`
calls, the second running in the environment advanced past the commands
the first consumed, issue exactly one launch command in total: the first
call launches once and polls `N` times, the second observes the handle
and launches nothing. -/
theorem no_double_launch (w : DockerWrapper) (env : DockerEnv) (fuel N : Nat)
    (h launchOut : String)
    (h0 : w.get_container_id (env.ps 0) = .ok "")
    (hrun : w.run_container (env.launch 0) = .ok launchOut)
    (hsettle : ∀ k, 1 ≤ k → k < N → w.get_container_id (env.ps k) = .ok "")
    (hstable : ∀ k, N ≤ k → w.get_container_id (env.ps k) = .ok h)
    (hne : h ≠ "")
    (hN : 1 ≤ N)
    (hfuel : N ≤ fuel) :
    w.start env fuel
      = .ok (some ("", ⟨1, 0, 1 + N, 2500 :: settle_waits 1 (N - 1)⟩)) ∧
    w.start (env.advance ⟨1, 0, 1 + N, 2500 :: settle_waits 1 (N - 1)⟩) fuel
      = .ok (some (h, ⟨0, 0, 1, []⟩)) ∧
    (⟨1, 0, 1 + N, 2500 :: settle_waits 1 (N - 1)⟩ : DockerTrace).launches
      + (⟨0, 0, 1, []⟩ : DockerTrace).launches = 1 := by
  refine ⟨?_, ?_, rfl⟩
  · unfold DockerWrapper.start
    rw [h0]
    simp only [if_pos rfl]
    rw [hrun]
    unfold with_retry
    rw [retrying_callAux_settles ⟨is_value_error, fun result => result == ""⟩
      (fun k => w.get_container_id (env.ps k)) h N
      (fun k hk1 hk2 => by
        show should_reject ⟨is_value_error, fun result => result == ""⟩
          (w.get_container_id (env.ps k)) = true
        rw [hsettle k hk1 hk2]
        rfl)
      (hstable N le_rfl)
      (by simp [should_reject, hne])
      fuel 1 [] le_rfl hN (by omega)]
    simp
  · have h2 : w.get_container_id
        ((env.advance ⟨1, 0, 1 + N, 2500 :: settle_waits 1 (N - 1)⟩).ps 0) = .ok h := by
      show w.get_container_id (env.ps (0 + (1 + N))) = .ok h
      exact hstable (0 + (1 + N)) (by omega)
    unfold DockerWrapper.start
    rw [h2]
    simp [hne]

/-- C9 witness: in the delayed-settle environment where the handle
becomes visible only at the second post-launch poll (N = 2), the two
sequential `start()` calls issue one launch and zero launches
respectively. -/
theorem no_double_launch_witness :
    dw.start envLaunch 5 = .ok (some ("", ⟨1, 0, 3, [2500, 2000]⟩)) ∧
    dw.start (envLaunch.advance ⟨1, 0, 3, [2500, 2000]⟩) 5
      = .ok (some ("c123", ⟨0, 0, 1, []⟩)) ∧
    (⟨1, 0, 3, [2500, 2000]⟩ : DockerTrace).launches
      + (⟨0, 0, 1, []⟩ : DockerTrace).launches = 1 := by
  have h := no_double_launch dw envLaunch 5 2 "c123" "deadbeef" (by decide) (by decide)
    (fun k hk1 hk2 => by
      have hk : k = 1 := by omega
      subst hk
      decide)
    (fun k hk => by
      have hk2 : ¬ k < 2 := by omega
      show dw.get_container_id
        (if k < 2 then .completed 0 "" "" else .completed 0 "c123" "") = .ok "c123"
      rw [if_neg hk2]
      decide)
    (by decide) (by decide) (by decide)
  have hs : (2500 : Int) :: settle_waits 1 (2 - 1) = [2500, 2000] := by decide
  have h3 : (1 + 2 : Nat) = 3 := by norm_num
  rw [hs, h3] at h
  exact h

/-- C8: with `--with-docker` disabled all four lifecycle callbacks invoke
neither `start()` nor `stop()` for any scope value; with it enabled and
scope `session` the session callbacks call `start()`/`stop()` and the
per-test callbacks do nothing; with it enabled and scope `test` the
per-test callbacks call `start()`/`stop()` and the session callbacks do
nothing. -/
theorem scope_binding_routing (name scope : String) :
    ((DockerMangePlugin.mk name false scope).pytest_sessionstart = [] ∧
     (DockerMangePlugin.mk name false scope).pytest_sessionfinish = [] ∧
     (DockerMangePlugin.mk name false scope).pytest_runtest_setup = [] ∧
     (DockerMangePlugin.mk name false scope).pytest_runtest_teardown = []) ∧
    ((DockerMangePlugin.mk name true "session").pytest_sessionstart = [.start] ∧
     (DockerMangePlugin.mk name true "session").pytest_sessionfinish = [.stop] ∧
     (DockerMangePlugin.mk name true "session").pytest_runtest_setup = [] ∧
     (DockerMangePlugin.mk name true "session").pytest_runtest_teardown = []) ∧
    ((DockerMangePlugin.mk name true "test").pytest_runtest_setup = [.start] ∧
     (DockerMangePlugin.mk name true "test").pytest_runtest_teardown = [.stop] ∧
     (DockerMangePlugin.mk name true "test").pytest_sessionstart = [] ∧
     (DockerMangePlugin.mk name true "test").pytest_sessionfinish = []) := by
  refine ⟨⟨?_, ?_, ?_, ?_⟩, ⟨?_, ?_, ?_, ?_⟩, ?_, ?_, ?_, ?_⟩ <;>
    simp [DockerMangePlugin.pytest_sessionstart, DockerMangePlugin.pytest_sessionfinish,
      DockerMangePlugin.pytest_runtest_setup, DockerMangePlugin.pytest_runtest_teardown]

/-- C10: `/reverse` answers 400 with an error body exactly when the
`text` parameter is absent or the empty string, leaving the cache
untouched; any other value — including whitespace-only text — is
accepted with a 200 whose result is the word-reversed text (empty for
whitespace-only input) and overwrites the cache; `/restore` answers 404
exactly when the cache slot is still `None`, and otherwise 200 with the
most recently cached result. -/
theorem demo_service_validation (c : Option String) (t r : String) :
    reverse c none = (400, .error "Missing \x27text\x27 query parameter", c) ∧
    reverse c (some "") = (400, .error "Missing \x27text\x27 query parameter", c) ∧
    (t ≠ "" → reverse c (some t) = (200, .result (reverse_words t), some (reverse_words t))) ∧
    reverse c (some "   ") = (200, .result "", some "") ∧
    restore none = (404, .error "No previous result found") ∧
    restore (some r) = (200, .result r) := by
  refine ⟨rfl, rfl, fun ht => ?_, rfl, rfl, rfl⟩
  simp [reverse, ht]

/-- C10 witness: concrete round trips — missing and empty text give 400
and keep the cache, `"a b"` gives 200 with `"b a"` cached, whitespace-only
text gives 200 with the empty result cached, `/restore` gives 404 on the
virgin cache and 200 afterwards. -/
theorem demo_service_validation_witness :
    reverse (some "old") none = (400, .error "Missing \x27text\x27 query parameter", some "old") ∧
    reverse (some "old") (some "") = (400, .error "Missing \x27text\x27 query parameter", some "old") ∧
    reverse (some "old") (some "a b") = (200, .result "b a", some "b a") ∧
    reverse (some "old") (some "   ") = (200, .result "", some "") ∧
    restore none = (404, .error "No previous result found") ∧
    restore (some "b a") = (200, .result "b a") :=
  ⟨(demo_service_validation (some "old") "a b" "b a").1,
   (demo_service_validation (some "old") "a b" "b a").2.1,
   by rw [(demo_service_validation (some "old") "a b" "b a").2.2.1 (by decide)]; decide,
   (demo_service_validation (some "old") "a b" "b a").2.2.2.1,
   (demo_service_validation (some "old") "a b" "b a").2.2.2.2.1,
   (demo_service_validation (some "old") "a b" "b a").2.2.2.2.2⟩
